import Mathlib

/-!
Shallow embedding of `systemdcontrol` (files `systemdcontrol.py`, `config.py`,
`systemdcontrol_tui.py`) and proofs about its spec claims.

Python strings are modelled as Lean `String`s; the handful of Python string
primitives the code uses (`str.strip`, `str.split`, `str.startswith`,
`str.endswith`, substring containment via `in`) are modelled by structurally
recursive functions over `String.data`, so that everything evaluates inside
the kernel.  External effects (`subprocess.run`, the filesystem, `datetime`)
are modelled as explicit inputs: a `subprocess.run` call is an
`Except SubprocessError String` (its captured stdout, or the exception class
it raised), `datetime.strptime` is a parameter `String → Option Int`
(seconds since an epoch), and `datetime.now()` is a parameter `Int`.
-/

/-- Model of `str.strip()`: drop leading and trailing whitespace characters. -/
def stripChars (l : List Char) : List Char :=
  ((l.dropWhile Char.isWhitespace).reverse.dropWhile Char.isWhitespace).reverse

/-- Model of `str.strip()` on `String`. -/
def pyStrip (s : String) : String := ⟨stripChars s.data⟩

/-- Contiguous-sublist test on character lists (substring occurrence). -/
def isInfixList (needle : List Char) : List Char → Bool
  | [] => needle.isEmpty
  | c :: rest => needle.isPrefixOf (c :: rest) || isInfixList needle rest

/-- Model of the Python `needle in s` substring test. -/
def containsSub (needle s : String) : Bool := isInfixList needle.data s.data

/-- Split a character list at every character satisfying `p`, keeping empty
pieces, as Python `str.split(sep)` does (always at least one piece). -/
def splitWhen (p : Char → Bool) : List Char → List (List Char)
  | [] => [[]]
  | ch :: rest =>
    match splitWhen p rest with
    | [] => [[]]
    | g :: gs => if p ch then [] :: g :: gs else (ch :: g) :: gs

/-- Model of Python `s.split('\n')`. -/
def pySplitLines (s : String) : List String :=
  (splitWhen (fun ch => ch == '\x0a') s.data).map String.mk

/-- Model of Python `s.split(';')`. -/
def pySplitSemi (s : String) : List String :=
  (splitWhen (fun ch => ch == ';') s.data).map String.mk

/-- Model of Python `s.split()`: split on whitespace runs, dropping empties. -/
def pyWords (s : String) : List String :=
  ((splitWhen Char.isWhitespace s.data).filter (fun w => !w.isEmpty)).map String.mk

/-- Model of Python `s.startswith(p)`. -/
def pyStartsWith (p s : String) : Bool := p.data.isPrefixOf s.data

/-- Model of Python `s.endswith(p)`. -/
def pyEndsWith (p s : String) : Bool := p.data.isSuffixOf s.data

/-- The exception classes a modelled `subprocess.run` call can raise.
`calledProcessError` is a non-zero exit under `check=True`;
`fileNotFoundError` is a missing executable; `timeoutExpired` a timeout. -/
inductive SubprocessError where
  | calledProcessError
  | fileNotFoundError
  | timeoutExpired
deriving DecidableEq, Repr

namespace SystemdControl

/-! ## `SystemdControl.get_services` (systemdcontrol.py lines 18-43) -/

/-- The loop body of `get_services`: from the stdout of
`systemctl list-unit-files --type=service --no-pager`, drop the first line,
and from each remaining line that is nonempty after stripping and does not
start with `UNIT FILE`, take the first whitespace-separated field when there
are at least two; keep it when it ends in `.service`, subject to the
`user_only` filter.  The `user_only` check
(`find_service_file` plus the configured-directory test, which reads the
filesystem) is abstracted as the parameter `inConfigDirs`. -/
def parse_service_names (stdout : String) (user_only : Bool)
    (inConfigDirs : String → Bool) : List String :=
  ((pySplitLines stdout).drop 1).filterMap (fun line =>
    if pyStrip line ≠ "" ∧ ¬ pyStartsWith "UNIT FILE" line then
      match pyWords line with
      | service_name :: _ :: _ =>
        if pyEndsWith ".service" service_name then
          if user_only then
            if inConfigDirs service_name then some service_name else none
          else some service_name
        else none
      | _ => none
    else none)

/-- Function `get_services` on a successful `systemctl` invocation: parse the unit
names and return `sorted(services)`. -/
def get_services (stdout : String) (user_only : Bool)
    (inConfigDirs : String → Bool) : List String :=
  (parse_service_names stdout user_only inConfigDirs).mergeSort
    (fun a b => decide (a ≤ b))

/-- Function `get_services` including its exception handling: the whole body is inside
`try: ... except subprocess.CalledProcessError: pass`, so a
`CalledProcessError` leaves `services = []` and the function returns
`sorted([])`; any other exception propagates to the caller. -/
def get_services_run (run : Except SubprocessError String) (user_only : Bool)
    (inConfigDirs : String → Bool) : Except SubprocessError (List String) :=
  match run with
  | .ok stdout => .ok (get_services stdout user_only inConfigDirs)
  | .error .calledProcessError => .ok []
  | .error e => .error e

/-! ## `SystemdControl.get_service_status` (systemdcontrol.py lines 45-85) -/

/-- The `status_info` dict built by `get_service_status`. -/
structure StatusInfo where
  name : String
  active : Bool
  enabled : Bool
  main_pid : Option String
  memory : Option String
  since : Option String
  description : String
  file_path : Option String
deriving DecidableEq, Repr

/-- The three `re.search` extractions in `get_service_status`
(`since (.+?)(?:;|$)`, `Main PID: (\d+)`, `Memory: (.+?)(?:\s|$)`),
abstracted as functions from the (stripped) line to the captured group. -/
structure RegexModel where
  sinceSearch : String → Option String
  pidSearch : String → Option String
  memSearch : String → Option String

/-- One iteration of the `for line in result.stdout.split('\n')` loop of
`get_service_status`: strip the line, then run the `if/elif` chain on it. -/
def statusLineStep (rx : RegexModel) (info : StatusInfo) (rawLine : String) :
    StatusInfo :=
  let line := pyStrip rawLine
  if containsSub "Active:" line then
    let info := { info with active := containsSub "active (running)" line }
    if containsSub "since" line then
      match rx.sinceSearch line with
      | some s => { info with since := some (pyStrip s) }
      | none => info
    else info
  else if containsSub "Loaded:" line then
    { info with enabled := containsSub "enabled" line }
  else if containsSub "Main PID:" line then
    match rx.pidSearch line with
    | some p => { info with main_pid := some p }
    | none => info
  else if containsSub "Memory:" line then
    match rx.memSearch line with
    | some m => { info with memory := some m }
    | none => info
  else if line ≠ "" ∧ ¬ pyStartsWith "●" line ∧
      ¬ (containsSub "Active:" line ∨ containsSub "Loaded:" line ∨
         containsSub "Main PID:" line ∨ containsSub "Memory:" line) then
    if info.description = "" then { info with description := line } else info
  else info

/-- The parsing loop of `get_service_status` over the whole stdout, starting
from the default `status_info` record. -/
def parseStatus (rx : RegexModel) (service : String) (file_path : Option String)
    (stdout : String) : StatusInfo :=
  (pySplitLines stdout).foldl (statusLineStep rx)
    { name := service, active := false, enabled := false, main_pid := none,
      memory := none, since := none, description := "", file_path := file_path }

/-- A line that triggers the `'Active:' in line` branch of the parse loop
(after stripping, as the loop strips each line first). -/
def isActiveLine (l : String) : Bool := containsSub "Active:" (pyStrip l)

/-- The `'active (running)' in line` test the `Active:` branch assigns from. -/
def hasRunningPhrase (l : String) : Bool :=
  containsSub "active (running)" (pyStrip l)

/-- The effect of one parse-loop iteration on the `active` field alone. -/
def activeScanStep (b : Bool) (l : String) : Bool :=
  if containsSub "Active:" (pyStrip l) then
    containsSub "active (running)" (pyStrip l)
  else b

/-- Function `get_service_status` with its `try/except`: the `systemctl status` call is
made without `check=True`, so its outcome is the whole invocation result; if
anything inside the `try` raises, the `except Exception` returns `None`,
otherwise the parsed record is returned.  `file_path` is the (pre-computed)
result of `find_service_file`, which reads the filesystem. -/
def get_service_status (rx : RegexModel) (service : String)
    (file_path : Option String) (run : Except SubprocessError String) :
    Option StatusInfo :=
  match run with
  | .ok stdout => some (parseStatus rx service file_path stdout)
  | .error _ => none

/-! ## `SystemdControl.get_service_logs` (systemdcontrol.py lines 109-115) -/

/-- Function `get_service_logs`: on a successful `journalctl` run, split the stripped
stdout into lines (or `[]` when it strips to empty); a `CalledProcessError`
(the `check=True` failure) is caught and mapped to the single sentinel line;
any other exception is not caught by the `except` clause. -/
def get_service_logs (run : Except SubprocessError String) :
    Except SubprocessError (List String) :=
  match run with
  | .ok stdout =>
    if pyStrip stdout ≠ "" then .ok (pySplitLines (pyStrip stdout))
    else .ok []
  | .error .calledProcessError => .ok ["No logs available or service not found"]
  | .error e => .error e

/-! ## `SystemdControl.format_uptime` (systemdcontrol.py lines 117-136) -/

/-- Function `format_uptime`.  `strptime` models
`datetime.strptime(_, '%a %Y-%m-%d %H:%M:%S %Z')` returning an epoch second
count on success and `None` where Python raises `ValueError`; `now` models
`datetime.now()`.  `timedelta.days` is floor division of the difference by
86400 and `timedelta.seconds` its nonnegative remainder, which is what
`Int.fdiv`/`Int.fmod` compute; `divmod` on the nonnegative remainder is again
`fdiv`/`fmod`. -/
def format_uptime (strptime : String → Option Int) (now : Int)
    (since_str : String) : String :=
  if since_str = "" then "N/A"
  else
    match strptime (pyStrip ((pySplitSemi since_str).headD "")) with
    | none => since_str
    | some since_time =>
      let diff := now - since_time
      let days := diff.fdiv 86400
      let secs := diff.fmod 86400
      let hours := secs.fdiv 3600
      let remainder := secs.fmod 3600
      let minutes := remainder.fdiv 60
      if days > 0 then
        toString days ++ "d " ++ toString hours ++ "h " ++ toString minutes ++ "m"
      else if hours > 0 then
        toString hours ++ "h " ++ toString minutes ++ "m"
      else
        toString minutes ++ "m"

end SystemdControl

namespace Config

/-! ## `Config` (config.py) -/

/-- The configuration dictionary with the keys `default_config` guarantees. -/
structure ConfigData where
  service_directories : List String
  recursive_search : Bool
  user_services_only : Bool
  refresh_interval : Int
deriving DecidableEq, Repr

/-- Dictionary `Config.default_config` (config.py lines 12-21). -/
def default_config : ConfigData :=
  { service_directories :=
      ["/etc/systemd/system", "/usr/lib/systemd/system", "/lib/systemd/system"],
    recursive_search := true,
    user_services_only := true,
    refresh_interval := 5 }

/-- A JSON config file's contents: any subset of the known keys may be
present (unknown extra keys do not affect the modelled getters). -/
structure PartialConfig where
  service_directories : Option (List String) := none
  recursive_search : Option Bool := none
  user_services_only : Option Bool := none
  refresh_interval : Option Int := none

/-- The state of the config file on disk as `load_config` can encounter it:
absent, present but unreadable (`json.JSONDecodeError` or `IOError`), or
readable with some contents. -/
inductive ConfigFile where
  | absent
  | unreadable
  | readable (data : PartialConfig)

/-- Method `Config.load_config` (config.py lines 24-36): missing or unreadable file
gives a copy of the defaults; otherwise `default_config.copy()` is updated
with the file's entries — each key present in the file overrides the default
with no validation. -/
def load_config : ConfigFile → ConfigData
  | .absent => default_config
  | .unreadable => default_config
  | .readable p =>
    { service_directories :=
        p.service_directories.getD default_config.service_directories,
      recursive_search := p.recursive_search.getD default_config.recursive_search,
      user_services_only :=
        p.user_services_only.getD default_config.user_services_only,
      refresh_interval := p.refresh_interval.getD default_config.refresh_interval }

/-- Method `Config.set_refresh_interval` (config.py lines 76-80).  `saveOk` models
whether `save_config()` succeeds (an `IOError` there returns `False`); the
returned pair is (returned bool, in-memory config afterwards). -/
def set_refresh_interval (interval : Int) (cfg : ConfigData) (saveOk : Bool) :
    Bool × ConfigData :=
  if interval > 0 then
    (saveOk, { cfg with refresh_interval := interval })
  else
    (false, cfg)

/-- Result of a directory add/remove: the returned bool, the in-memory config
afterwards, and whether `save_config()` was invoked. -/
structure ConfigOpResult where
  ok : Bool
  config : ConfigData
  saved : Bool
deriving DecidableEq, Repr

/-- Method `Config.add_service_directory` (config.py lines 50-54): append and save
only when the directory is not already present, else return `True`
untouched. -/
def add_service_directory (d : String) (cfg : ConfigData) (saveOk : Bool) :
    ConfigOpResult :=
  if d ∉ cfg.service_directories then
    { ok := saveOk,
      config := { cfg with
        service_directories := cfg.service_directories ++ [d] },
      saved := true }
  else
    { ok := true, config := cfg, saved := false }

/-- Method `Config.remove_service_directory` (config.py lines 56-60):
`list.remove` deletes the first occurrence, modelled by `List.erase`. -/
def remove_service_directory (d : String) (cfg : ConfigData) (saveOk : Bool) :
    ConfigOpResult :=
  if d ∈ cfg.service_directories then
    { ok := saveOk,
      config := { cfg with
        service_directories := cfg.service_directories.erase d },
      saved := true }
  else
    { ok := true, config := cfg, saved := false }

end Config

namespace TUI

/-! ## `TUI` cursor and log-scroll state (systemdcontrol_tui.py) -/

/-- The `KEY_UP` branch of `TUI.run` (line 648):
`current_selection = max(0, current_selection - 1)`. -/
def selection_up (sel : Int) : Int := max 0 (sel - 1)

/-- The `KEY_DOWN` branch of `TUI.run` (line 651):
`current_selection = min(len(services) - 1, current_selection + 1)`. -/
def selection_down (sel numServices : Int) : Int :=
  min (numServices - 1) (sel + 1)

/-- The clamp at the top of `TUI.draw_services` (lines 225-226):
`if current_selection >= len(services): current_selection = max(0, len - 1)`. -/
def draw_services_clamp (sel numServices : Int) : Int :=
  if sel ≥ numServices then max 0 (numServices - 1) else sel

/-- Initial scroll position of the log viewer
(`scroll_pos = max(0, len(logs) - display_height)`, line 343). -/
def init_scroll_pos (numLogs displayHeight : Int) : Int :=
  max 0 (numLogs - displayHeight)

/-- The scrolling keys handled by `TUI.show_service_logs`. -/
inductive LogKey where
  | lineUp
  | lineDown
  | pageDown
  | pageUp
  | home
  | jumpEnd
deriving DecidableEq, Repr

/-- One key press in the log-viewer loop (lines 373-384). -/
def scroll_step (numLogs displayHeight pos : Int) : LogKey → Int
  | .lineUp => max 0 (pos - 1)
  | .lineDown => min (max 0 (numLogs - displayHeight)) (pos + 1)
  | .pageDown => min (max 0 (numLogs - displayHeight)) (pos + displayHeight)
  | .pageUp => max 0 (pos - displayHeight)
  | .home => 0
  | .jumpEnd => max 0 (numLogs - displayHeight)

end TUI

/-! ## Shared concrete inputs for witnesses and counterexamples -/

/-- A trivial instantiation of the regex extractions (all fail to match). -/
def rxNone : SystemdControl.RegexModel :=
  ⟨fun _ => none, fun _ => none, fun _ => none⟩

/-- A user-filter that accepts every unit. -/
def allDirs : String → Bool := fun _ => true

/-- A status report whose active-state line says `active (exited)`. -/
def exitedReport : String :=
  "● cron.service - Regular background program processing daemon\x0a     Loaded: loaded (/lib/systemd/system/cron.service; enabled; preset: enabled)\x0a     Active: active (exited) since Mon 2024-01-01 00:00:00 UTC; 1h ago"

/-- Output of the unit-listing tool in which the same unit appears twice. -/
def dupStdout : String :=
  "UNIT FILE STATE PRESET\x0aa.service enabled enabled\x0aa.service enabled enabled"

/-- Output of the unit-listing tool with two distinct units, out of order. -/
def cleanStdout : String :=
  "UNIT FILE STATE PRESET\x0ab.service enabled enabled\x0aa.service disabled disabled"

/-- A `strptime` model that parses every string to epoch second 0. -/
def uptimeParse0 : String → Option Int := fun _ => some 0

/-! ## Claims -/

/-- Claim C3: for every unit name, `get_service_status` either succeeds with a
best-effort record or returns `None`: whenever the invocation (or anything in
the `try` block) raises, the result is `None`, and on every captured stdout —
however malformed — the result is the fully-populated record produced by the
total parse `parseStatus`, never a partial value. -/
theorem C3_get_service_status_total (rx : SystemdControl.RegexModel)
    (service : String) (fp : Option String) :
    (∀ e, SystemdControl.get_service_status rx service fp (.error e) = none) ∧
    (∀ stdout, SystemdControl.get_service_status rx service fp (.ok stdout) =
      some (SystemdControl.parseStatus rx service fp stdout)) :=
  ⟨fun _ => rfl, fun _ => rfl⟩

/-- Claim C5 counterexample: with an empty service list and the cursor at 0, a
key-down press sets `current_selection` to `min(0 - 1, 0 + 1) = -1`, not 0,
and the clamp at the top of `draw_services` (which only fires when
`sel ≥ len`) leaves the -1 in place. -/
theorem C5_counterexample :
    TUI.selection_down 0 0 = -1 ∧ TUI.draw_services_clamp (-1) 0 = -1 := by
  constructor <;> decide

/-- Claim C5 amended: when the service list is nonempty and the cursor is in
`[0, len-1]`, both cursor moves keep it within `[0, len-1]`; when the list is
empty, a key-up press keeps the cursor at 0 but a key-down press sets it
to -1. -/
theorem C5_selection_bounds (sel len : Int) (hlen : 1 ≤ len) (h0 : 0 ≤ sel)
    (h1 : sel ≤ len - 1) :
    (0 ≤ TUI.selection_up sel ∧ TUI.selection_up sel ≤ len - 1) ∧
    (0 ≤ TUI.selection_down sel len ∧ TUI.selection_down sel len ≤ len - 1) ∧
    (TUI.selection_up 0 = 0 ∧ TUI.selection_down 0 0 = -1) := by
  unfold TUI.selection_up TUI.selection_down
  omega

/-- Witness for C5's amended theorem at `sel = 1`, `len = 2`. -/
theorem C5_selection_bounds_witness :
    ((1:Int) ≤ 2) ∧ ((0:Int) ≤ 1) ∧ ((1:Int) ≤ 2 - 1) ∧
    ((0 ≤ TUI.selection_up 1 ∧ TUI.selection_up 1 ≤ 2 - 1) ∧
     (0 ≤ TUI.selection_down 1 2 ∧ TUI.selection_down 1 2 ≤ 2 - 1) ∧
     (TUI.selection_up 0 = 0 ∧ TUI.selection_down 0 0 = -1)) :=
  ⟨by decide, by decide, by decide,
   C5_selection_bounds 1 2 (by decide) (by decide) (by decide)⟩

/-- Claim C6: when the `journalctl` invocation fails (the no-logs scenario of
the spec, a non-zero exit under `check=True`), `get_service_logs` catches the
error and returns normally — it does not re-raise — with exactly one line,
the fixed sentinel string, never an empty sequence. -/
theorem C6_logs_sentinel :
    SystemdControl.get_service_logs (.error .calledProcessError) =
      .ok ["No logs available or service not found"] ∧
    (["No logs available or service not found"] : List String).length = 1 :=
  ⟨rfl, rfl⟩

/-- Claim C7 counterexample: a missing `systemctl` executable raises
`FileNotFoundError`, which the `except subprocess.CalledProcessError` clause
does not catch: `get_services` propagates it instead of returning `[]`. -/
theorem C7_counterexample :
    SystemdControl.get_services_run (.error .fileNotFoundError) false allDirs =
      .error .fileNotFoundError ∧
    SystemdControl.get_services_run (.error .fileNotFoundError) false allDirs ≠
      .ok [] := ⟨rfl, fun h => Except.noConfusion h⟩

/-- Claim C7 amended: a `CalledProcessError` (non-zero exit) is caught at the
point of invocation and degraded to the empty list, but a missing executable
(`FileNotFoundError`) or a timeout (`TimeoutExpired`) is not caught and
propagates to the caller. -/
theorem C7_error_handling (u : Bool) (f : String → Bool) :
    SystemdControl.get_services_run (.error .calledProcessError) u f = .ok [] ∧
    SystemdControl.get_services_run (.error .fileNotFoundError) u f =
      .error .fileNotFoundError ∧
    SystemdControl.get_services_run (.error .timeoutExpired) u f =
      .error .timeoutExpired :=
  ⟨rfl, rfl, rfl⟩

/-- Claim C8: `set_refresh_interval n` with `n ≤ 0` returns `False` and leaves
the in-memory configuration unchanged (no save), while `load_config` merges a
stored `refresh_interval` without validating it, so a file containing
`refresh_interval 0` is accepted as-is at load time. -/
theorem C8_refresh_interval (n : Int) (cfg : Config.ConfigData) (saveOk : Bool)
    (h : n ≤ 0) :
    Config.set_refresh_interval n cfg saveOk = (false, cfg) ∧
    (Config.load_config (.readable { refresh_interval := some 0 })).refresh_interval
      = 0 := by
  refine ⟨?_, rfl⟩
  unfold Config.set_refresh_interval
  rw [if_neg (by omega)]

/-- Witness for C8 at `n = 0` on the default configuration. -/
theorem C8_refresh_interval_witness :
    ((0:Int) ≤ 0) ∧
    (Config.set_refresh_interval 0 Config.default_config true =
        (false, Config.default_config) ∧
      (Config.load_config (.readable { refresh_interval := some 0 })).refresh_interval
        = 0) :=
  ⟨by decide, C8_refresh_interval 0 Config.default_config true (by decide)⟩

/-- Claim C9: the log-viewer scroll offset is initialized to
`max(0, total - viewport)` (showing the tail), and every scroll key — line
up/down, page up/down, jump to start/end — keeps it within
`[0, max(0, total - viewport)]`. -/
theorem C9_scroll_invariant (total h pos : Int) (hh : 0 ≤ h) (hp0 : 0 ≤ pos)
    (hp1 : pos ≤ max 0 (total - h)) :
    TUI.init_scroll_pos total h = max 0 (total - h) ∧
    (0 ≤ TUI.init_scroll_pos total h ∧
      TUI.init_scroll_pos total h ≤ max 0 (total - h)) ∧
    ∀ k, 0 ≤ TUI.scroll_step total h pos k ∧
      TUI.scroll_step total h pos k ≤ max 0 (total - h) := by
  refine ⟨rfl, ⟨?_, ?_⟩, ?_⟩
  · unfold TUI.init_scroll_pos; omega
  · unfold TUI.init_scroll_pos; omega
  · intro k
    cases k <;> simp only [TUI.scroll_step] <;> omega

/-- Witness for C9 with 5 log lines, viewport height 2, offset 0. -/
theorem C9_scroll_invariant_witness :
    ((0:Int) ≤ 2) ∧ ((0:Int) ≤ 0) ∧ ((0:Int) ≤ max 0 (5 - 2)) ∧
    (TUI.init_scroll_pos 5 2 = max 0 (5 - 2) ∧
     (0 ≤ TUI.init_scroll_pos 5 2 ∧ TUI.init_scroll_pos 5 2 ≤ max 0 (5 - 2)) ∧
     ∀ k, 0 ≤ TUI.scroll_step 5 2 0 k ∧
       TUI.scroll_step 5 2 0 k ≤ max 0 (5 - 2)) :=
  ⟨by decide, by decide, by decide,
   C9_scroll_invariant 5 2 0 (by decide) (by decide) (by decide)⟩

/-- Claim C10: adding a directory already present in the configured list
returns `True`, leaves the configuration unchanged and performs no save;
removing a directory not in the list likewise returns `True` with no change
and no save. -/
theorem C10_add_remove_noop (d : String) (cfg : Config.ConfigData)
    (saveOk : Bool) :
    (d ∈ cfg.service_directories →
      Config.add_service_directory d cfg saveOk =
        { ok := true, config := cfg, saved := false }) ∧
    (d ∉ cfg.service_directories →
      Config.remove_service_directory d cfg saveOk =
        { ok := true, config := cfg, saved := false }) := by
  constructor
  · intro h
    unfold Config.add_service_directory
    rw [if_neg (not_not_intro h)]
  · intro h
    unfold Config.remove_service_directory
    rw [if_neg h]

/-- Witness for C10 on the default configuration: `/etc/systemd/system` is
present, `/nonexistent` is not. -/
theorem C10_add_remove_noop_witness :
    ("/etc/systemd/system" ∈ Config.default_config.service_directories) ∧
    ("/nonexistent" ∉ Config.default_config.service_directories) ∧
    Config.add_service_directory "/etc/systemd/system" Config.default_config true
      = { ok := true, config := Config.default_config, saved := false } ∧
    Config.remove_service_directory "/nonexistent" Config.default_config true
      = { ok := true, config := Config.default_config, saved := false } :=
  ⟨by decide, by decide,
   (C10_add_remove_noop "/etc/systemd/system" Config.default_config true).1
     (by decide),
   (C10_add_remove_noop "/nonexistent" Config.default_config true).2
     (by decide)⟩

/-! ## Claim C1 -/

/-- One parse-loop iteration changes the `active` field exactly as
`activeScanStep` does. -/
theorem statusLineStep_active (rx : SystemdControl.RegexModel)
    (info : SystemdControl.StatusInfo) (l : String) :
    (SystemdControl.statusLineStep rx info l).active =
      SystemdControl.activeScanStep info.active l := by
  unfold SystemdControl.statusLineStep SystemdControl.activeScanStep
  cases h1 : containsSub "Active:" (pyStrip l) with
  | true =>
    simp only [h1, if_true]
    split
    · split <;> rfl
    · rfl
  | false =>
    simp only [h1, Bool.false_eq_true, if_false]
    split
    · rfl
    · split
      · split <;> rfl
      · split
        · split <;> rfl
        · split
          · split <;> rfl
          · rfl

/-- The `active` field after the whole parse loop is the `activeScanStep`
fold over the same lines. -/
theorem parse_active_foldl (rx : SystemdControl.RegexModel)
    (lines : List String) :
    ∀ info : SystemdControl.StatusInfo,
      (lines.foldl (SystemdControl.statusLineStep rx) info).active =
        lines.foldl SystemdControl.activeScanStep info.active := by
  induction lines with
  | nil => intro info; rfl
  | cons l ls ih =>
    intro info
    simp only [List.foldl_cons]
    rw [ih, statusLineStep_active]

/-- On a line with the active-state label, `activeScanStep` ignores the
accumulator and returns the running-phrase test. -/
theorem activeScanStep_pos {l : String}
    (hl : SystemdControl.isActiveLine l = true) (b : Bool) :
    SystemdControl.activeScanStep b l = SystemdControl.hasRunningPhrase l := by
  unfold SystemdControl.activeScanStep SystemdControl.hasRunningPhrase
  unfold SystemdControl.isActiveLine at hl
  rw [if_pos hl]

/-- On a line without the active-state label, `activeScanStep` keeps the
accumulator. -/
theorem activeScanStep_neg {l : String}
    (hl : SystemdControl.isActiveLine l = false) (b : Bool) :
    SystemdControl.activeScanStep b l = b := by
  unfold SystemdControl.activeScanStep
  unfold SystemdControl.isActiveLine at hl
  rw [if_neg (by simp [hl])]

/-- A fold over lines none of which carries the active-state label leaves the
accumulator unchanged. -/
theorem activeScan_of_no_active (lines : List String)
    (h : lines.countP SystemdControl.isActiveLine = 0) :
    ∀ b : Bool, lines.foldl SystemdControl.activeScanStep b = b := by
  induction lines with
  | nil => intro b; rfl
  | cons l ls ih =>
    intro b
    rw [List.countP_cons] at h
    have hl : SystemdControl.isActiveLine l = false := by
      by_cases hh : SystemdControl.isActiveLine l = true
      · simp [hh] at h
      · simpa using hh
    rw [List.foldl_cons, activeScanStep_neg hl]
    simp only [hl, Bool.false_eq_true, if_false, Nat.add_zero] at h
    exact ih h b

/-- When at most one line carries the active-state label, the fold yields
`true` iff some line carries both the label and the running phrase. -/
theorem activeScan_iff (lines : List String)
    (h : lines.countP SystemdControl.isActiveLine ≤ 1) :
    (lines.foldl SystemdControl.activeScanStep false = true ↔
      ∃ l ∈ lines, SystemdControl.isActiveLine l = true ∧
        SystemdControl.hasRunningPhrase l = true) := by
  induction lines with
  | nil => simp
  | cons l ls ih =>
    rw [List.countP_cons] at h
    rw [List.foldl_cons]
    by_cases hl : SystemdControl.isActiveLine l = true
    · have h0 : ls.countP SystemdControl.isActiveLine = 0 := by
        simp [hl] at h
        exact List.countP_eq_zero.mpr fun a ha => by simp [h a ha]
      rw [activeScanStep_pos hl, activeScan_of_no_active ls h0]
      constructor
      · intro hr
        exact ⟨l, List.mem_cons_self l ls, hl, hr⟩
      · rintro ⟨x, hx, hax, hrx⟩
        rcases List.mem_cons.mp hx with rfl | hx'
        · exact hrx
        · exfalso
          have := List.countP_eq_zero.mp h0 x hx'
          simp [hax] at this
    · have hl' : SystemdControl.isActiveLine l = false := by simpa using hl
      have h1 : ls.countP SystemdControl.isActiveLine ≤ 1 := by
        simp [hl'] at h; omega
      rw [activeScanStep_neg hl', ih h1]
      constructor
      · rintro ⟨x, hx, hax, hrx⟩
        exact ⟨x, List.mem_cons_of_mem l hx, hax, hrx⟩
      · rintro ⟨x, hx, hax, hrx⟩
        rcases List.mem_cons.mp hx with rfl | hx'
        · exact absurd hax hl
        · exact ⟨x, hx', hax, hrx⟩

/-- Claim C1: in a well-formed report (at most one line carries the
active-state label `Active:`), the parsed record's `active` field is `true`
iff the report has a line carrying the label whose stripped text contains the
exact phrase `active (running)`; in particular a report whose active-state
line says `active (exited)` parses with `active = false`. -/
theorem C1_active_iff (rx : SystemdControl.RegexModel) (service : String)
    (fp : Option String) (stdout : String)
    (h : (pySplitLines stdout).countP SystemdControl.isActiveLine ≤ 1) :
    ((SystemdControl.parseStatus rx service fp stdout).active = true ↔
      ∃ l ∈ pySplitLines stdout, SystemdControl.isActiveLine l = true ∧
        SystemdControl.hasRunningPhrase l = true) := by
  unfold SystemdControl.parseStatus
  rw [parse_active_foldl]
  exact activeScan_iff _ h

set_option maxRecDepth 100000 in
/-- Witness for C1 on a concrete `active (exited)` report: the hypothesis
holds and the instantiated equivalence follows; the extra conjunct checks by
evaluation that this report indeed parses with `active = false`. -/
theorem C1_active_iff_witness :
    ((pySplitLines exitedReport).countP SystemdControl.isActiveLine ≤ 1) ∧
    ((SystemdControl.parseStatus rxNone "cron.service" none exitedReport).active
        = true ↔
      ∃ l ∈ pySplitLines exitedReport, SystemdControl.isActiveLine l = true ∧
        SystemdControl.hasRunningPhrase l = true) ∧
    (SystemdControl.parseStatus rxNone "cron.service" none exitedReport).active
      = false :=
  ⟨by decide, C1_active_iff rxNone "cron.service" none exitedReport (by decide),
   by decide⟩

/-! ## Claim C2 -/

set_option maxRecDepth 100000 in
/-- Claim C2 counterexample: `get_services` does not deduplicate — a tool
output in which `a.service` appears on two rows yields a result list with two
copies of `a.service`. -/
theorem C2_counterexample :
    ¬ (SystemdControl.get_services dupStdout false allDirs).Nodup := by
  intro hnd
  have hp : (SystemdControl.get_services dupStdout false allDirs).Perm
      (SystemdControl.parse_service_names dupStdout false allDirs) :=
    List.mergeSort_perm _ _
  have h2 := hp.nodup hnd
  have h3 : SystemdControl.parse_service_names dupStdout false allDirs =
      ["a.service", "a.service"] := by decide
  rw [h3] at h2
  simp at h2

/-- Claim C2 amended: for every scope and every tool output, `get_services`
returns a list sorted ascending lexicographically; it additionally contains
no duplicates whenever the parsed unit names are themselves duplicate-free
(sorting neither adds nor removes elements). -/
theorem C2_sorted_nodup (stdout : String) (u : Bool) (f : String → Bool)
    (h : (SystemdControl.parse_service_names stdout u f).Nodup) :
    (SystemdControl.get_services stdout u f).Sorted (· ≤ ·) ∧
    (SystemdControl.get_services stdout u f).Nodup := by
  constructor
  · exact List.sorted_mergeSort'
      (SystemdControl.parse_service_names stdout u f)
  · exact ((List.mergeSort_perm
      (SystemdControl.parse_service_names stdout u f) _).symm.nodup h)

set_option maxRecDepth 100000 in
/-- Witness for C2's amended theorem on a duplicate-free two-unit output. -/
theorem C2_sorted_nodup_witness :
    (SystemdControl.parse_service_names cleanStdout false allDirs).Nodup ∧
    ((SystemdControl.get_services cleanStdout false allDirs).Sorted (· ≤ ·) ∧
     (SystemdControl.get_services cleanStdout false allDirs).Nodup) :=
  ⟨by decide, C2_sorted_nodup cleanStdout false allDirs (by decide)⟩

/-! ## Claim C4 -/

/-- Claim C4: `format_uptime` returns `N/A` exactly on the empty (missing)
timestamp; a non-empty timestamp whose prefix before the first semicolon does
not parse is returned unchanged; and a parsed timestamp renders as exactly
one of the three templates — the days template exactly when at least one full
day has elapsed, the hours template exactly when less than a day but at least
one full hour has elapsed, and the minutes template otherwise. -/
theorem C4_format_uptime_cases (strptime : String → Option Int) (now : Int)
    (s : String) :
    (s = "" → SystemdControl.format_uptime strptime now s = "N/A") ∧
    (s ≠ "" → strptime (pyStrip ((pySplitSemi s).headD "")) = none →
      SystemdControl.format_uptime strptime now s = s) ∧
    (∀ t, s ≠ "" → strptime (pyStrip ((pySplitSemi s).headD "")) = some t →
      SystemdControl.format_uptime strptime now s =
        (if 86400 ≤ now - t then
          toString ((now - t).fdiv 86400) ++ "d " ++
            toString (((now - t).fmod 86400).fdiv 3600) ++ "h " ++
            toString ((((now - t).fmod 86400).fmod 3600).fdiv 60) ++ "m"
         else if 3600 ≤ (now - t).fmod 86400 then
          toString (((now - t).fmod 86400).fdiv 3600) ++ "h " ++
            toString ((((now - t).fmod 86400).fmod 3600).fdiv 60) ++ "m"
         else
          toString ((((now - t).fmod 86400).fmod 3600).fdiv 60) ++ "m")) := by
  refine ⟨?_, ?_, ?_⟩
  · intro hs
    simp only [SystemdControl.format_uptime]
    rw [if_pos hs]
  · intro hs hp
    simp only [SystemdControl.format_uptime]
    rw [if_neg hs, hp]
  · intro t hs hp
    simp only [SystemdControl.format_uptime]
    rw [if_neg hs, hp]
    dsimp only
    have hdiv : (0 < (now - t).fdiv 86400) ↔ 86400 ≤ now - t := by
      rw [Int.fdiv_eq_ediv _ (by norm_num)]
      omega
    have hhr : (0 < ((now - t).fmod 86400).fdiv 3600) ↔
        3600 ≤ (now - t).fmod 86400 := by
      rw [Int.fdiv_eq_ediv _ (by norm_num)]
      omega
    by_cases h1 : 86400 ≤ now - t
    · rw [if_pos (hdiv.mpr h1), if_pos h1]
    · rw [if_neg (fun hc => h1 (hdiv.mp hc)), if_neg h1]
      by_cases h2 : 3600 ≤ (now - t).fmod 86400
      · rw [if_pos (hhr.mpr h2), if_pos h2]
      · rw [if_neg (fun hc => h2 (hhr.mp hc)), if_neg h2]

/-- Witness for C4 at a parse that succeeds with epoch 0 and a `now` of
1 day, 1 hour, 1 minute and 1 second: the rendered result is the days
template. -/
theorem C4_format_uptime_cases_witness :
    ("x" ≠ "") ∧
    SystemdControl.format_uptime uptimeParse0 90061 "x" = "1d 1h 1m" :=
  ⟨by decide,
   ((C4_format_uptime_cases uptimeParse0 90061 "x").2.2 0 (by decide)
       rfl).trans (by decide)⟩
